import Mathlib

/-!
Verification of the fault-injection engine (`mininet/fault_injectors.py`).

The Python source is shallowly embedded: command strings are built with the
same concatenations as the source; Python exceptions (IndexError, TypeError,
KeyError, ZeroDivisionError, str.format errors) are modelled by `Option`
results, with `none` standing for "the task raises"; Python `None` values
flowing into `subprocess.call`/string concatenation also crash and are likewise
`none`.  Durations are kept in integer milliseconds so that Python's
second-valued float arithmetic (`int(ms)/1000`) is represented exactly; a sleep
of `t` seconds is recorded as `Ev.sleep (1000 t)`.  `int(x)` on a non-negative
quotient is truncation, modelled with `Int.tdiv`.
-/

/-! ## String helpers mirroring Python primitives -/

/-- Python `pat in s` (substring containment), character-list level. -/
def listContainsSub (pat : List Char) : List Char → Bool
  | [] => pat.isEmpty
  | c :: rest => pat.isPrefixOf (c :: rest) || listContainsSub pat rest

/-- Python `pat in s` on strings. -/
def pyIn (pat s : String) : Bool := listContainsSub pat.data s.data

/-- Occurrence count (counts every start position carrying a match; for the
patterns used here, which cannot overlap themselves, this agrees with
Python's non-overlapping `str.count`). -/
def countOcc (pat : List Char) : List Char → Nat
  | [] => 0
  | c :: rest => (if pat.isPrefixOf (c :: rest) then 1 else 0) + countOcc pat rest

/-- Python `s.count(pat)` on strings (for non-self-overlapping `pat`). -/
def strCount (pat s : String) : Nat := countOcc pat.data s.data

/-- Python `s.replace(c, rep)` for a single-character pattern `c`. -/
def charReplace (s : String) (c : Char) (rep : String) : String :=
  ⟨s.data.flatMap (fun a => if a = c then rep.data else [a])⟩

/-- Leftmost non-overlapping replacement, fuel-structured so it computes in the
kernel; the fuel is the length of the scanned list, which suffices because each
step consumes at least one character. -/
def listReplaceAux (pat rep : List Char) : Nat → List Char → List Char
  | 0, s => s
  | _ + 1, [] => []
  | f + 1, c :: rest =>
    if pat.isPrefixOf (c :: rest) then
      rep ++ listReplaceAux pat rep f (List.drop (pat.length - 1) rest)
    else
      c :: listReplaceAux pat rep f rest

/-- Python `s.replace(pat, rep)` for a non-empty multi-character pattern. -/
def strReplace (s pat rep : String) : String :=
  ⟨listReplaceAux pat.data rep.data s.data.length s.data⟩

/-- Whether `p` is a leading substring of `s` (Python `s.startswith(p)`). -/
def strStartsWith (p s : String) : Bool := p.data.isPrefixOf s.data

/-- The opening brace character (written via its code point to keep braces out
of string literals). -/
def lbrace : Char := Char.ofNat 123

/-- The closing brace character. -/
def rbrace : Char := Char.ofNat 125

/-- The Python format placeholder, the two-character string holding an opening
and a closing brace. -/
def placeholderStr : String := ⟨[lbrace, rbrace]⟩

/-- Python `s.count` of format placeholders in a template. -/
def countPlaceholders (s : String) : Nat := countOcc placeholderStr.data s.data

/-- Python `template.format(arg)` with a single positional argument: raises
(`none`) when the template holds two or more placeholders, otherwise
substitutes the argument (zero or one placeholder). -/
def pyFormat1 (template : String) (arg : Int) : Option String :=
  if 2 ≤ countPlaceholders template then none
  else some (strReplace template placeholderStr (toString arg))

/-- Python `int(s)` on plain decimal digit strings (possibly negative); other
forms are rejected. -/
def parseNatAux : List Char → Nat → Option Nat
  | [], acc => some acc
  | c :: cs, acc => if c.isDigit then parseNatAux cs (acc * 10 + (c.toNat - 48)) else none

/-- Python `int(s)` / `float(s)` for the integral strings the injectors use. -/
def pyParseInt (s : String) : Option Int :=
  match s.data with
  | [] => none
  | '-' :: rest => if rest.isEmpty then none else (parseNatAux rest 0).map (fun n => -(n : Int))
  | l => (parseNatAux l 0).map (fun n => (n : Int))

/-! ## Logged / executed events

One event per suspension-free side effect: `sleep ms` is `asyncio.sleep` of
`ms/1000` seconds, `exec` a shell invocation, `active`/`inactive` the logger
calls `FaultLogger.set_fault_active(tag, _, cmd, _)` /
`FaultLogger.set_fault_inactive(tag)`. -/

inductive Ev where
  | sleep (ms : Int)
  | exec (cmd : String)
  | active (tag : String) (cmd : String)
  | inactive (tag : String)
deriving DecidableEq

def isActiveEv : Ev → Bool
  | .active _ _ => true
  | _ => false

def isInactiveEv : Ev → Bool
  | .inactive _ => true
  | _ => false

/-! ## MultiInjector -/

/-- `MultiInjector.execute_command_for_node`, line 100: the namespace-entry
command put in front of every executed command. -/
def multiBaseCommand (pid : Nat) : String :=
  "nsenter --target " ++ Nat.repr pid ++ " --net --pid "

/-- Lines 103-106: prepend the prefix, and if the command holds a pipe, replace
each pipe character by the prefix text (note the source drops the `|`). -/
def multiFullCommand (pid : Nat) (cmd : String) : String :=
  let full := multiBaseCommand pid ++ cmd
  if pyIn "|" full then charReplace full '|' (multiBaseCommand pid) else full

/-- First component of `MultiInjector.build_start_command` (line 71). -/
def multiStartCommand (configString : String) : String :=
  "echo '" ++ configString ++ "' | tcset /dev/stdin --import-setting"

/-- Lines 109-115: run the command, then notify the logger. -/
def multiExecEvents (pid : Nat) (tag cmd : String) (enable : Bool) : List Ev :=
  [Ev.exec (multiFullCommand pid cmd),
   if enable then Ev.active tag cmd else Ev.inactive tag]

structure MultiCfg where
  pid : Nat
  tag : String
  faultPattern : String
  patternArgs : List Int
  injectCmd : String
  ejectCmd : String
  preMs : Int
  injMs : Int
  postMs : Int
deriving DecidableEq

/-- `MultiInjector._inject_burst` parameter handling (lines 128-135): fewer
than two pattern args logs an error and defaults to 1 s bursts per 2 s
(returned here in milliseconds). -/
def multiBurstParams (fpa : List Int) : Int × Int :=
  if fpa.length < 2 then (1000, 2000) else (fpa.getD 0 0, fpa.getD 1 0)

/-- `MultiInjector._inject_burst` (lines 125-143). A zero period raises
ZeroDivisionError at `injection_time / burst_period`. -/
def multiBurstTrace (cfg : MultiCfg) : Option (List Ev) :=
  let (durMs, perMs) := multiBurstParams cfg.patternArgs
  if perMs = 0 then none
  else
    let n := (Int.tdiv cfg.injMs perMs).toNat
    some (List.flatten (List.replicate n
      (multiExecEvents cfg.pid cfg.tag cfg.injectCmd true ++ [Ev.sleep durMs] ++
       multiExecEvents cfg.pid cfg.tag cfg.ejectCmd false ++ [Ev.sleep (perMs - durMs)])))

/-- `MultiInjector._inject_persistent` (lines 145-150). -/
def multiPersistentTrace (cfg : MultiCfg) : List Ev :=
  multiExecEvents cfg.pid cfg.tag cfg.injectCmd true ++ [Ev.sleep cfg.injMs] ++
    multiExecEvents cfg.pid cfg.tag cfg.ejectCmd false

/-- `MultiInjector.do_injection` (lines 152-165): pre-injection sleep, pattern
dispatch (an unknown pattern only logs an error), post-injection sleep. -/
def multiDoInjectionTrace (cfg : MultiCfg) : Option (List Ev) :=
  match (if cfg.faultPattern = "burst" then multiBurstTrace cfg
         else if cfg.faultPattern = "persistent" then some (multiPersistentTrace cfg)
         else some []) with
  | none => none
  | some mid => some ([Ev.sleep cfg.preMs] ++ mid ++ [Ev.sleep cfg.postMs])

/-! ## LinkInjector -/

/-- Protocol table (`LinkInjector.__init__`, lines 216-224); an unknown key
raises KeyError, modelled by `none`. -/
def targetProtocolTable (p : String) : Option String :=
  if p = "ICMP" then some "1"
  else if p = "IGMP" then some "2"
  else if p = "IP" then some "4"
  else if p = "TCP" then some "6"
  else if p = "UDP" then some "17"
  else if p = "IPv6" then some "41"
  else if p = "IPv6-ICMP" then some "58"
  else none

/-- Namespace-entry text for link-scoped commands
(`make_nics_injection_command` lines 380-384 and
`make_filtered_nics_injection_commands` lines 497-501): empty without a
namespace pid, otherwise `nsenter --target {pid} --net ` (no `--pid`). -/
def linkBaseCommand : Option Nat → String
  | none => ""
  | some pid => "nsenter --target " ++ Nat.repr pid ++ " --net "

/-- The 32-bit maximum used by the random-redirect filter (line 403). -/
def randomRedirectMask : Int := 4294967295

/-- `boundary = int(maximum_value * (percentage_to_redirect / 100))` (line
404).  Python computes this in double-precision floats; for integral `0 ≤ p ≤
100` the float result is exactly `⌊4294967295 p / 100⌋`, which this integer
division computes. -/
def randomRedirectBoundary (p : Int) : Int := (randomRedirectMask * p) / 100

/-- `filter_string` of the random-redirect branch (line 418): the basic-match
filter over the kernel's 64-bit `meta random`, masked down to 32 bits. -/
def randomRedirectFilterString (p : Int) : String :=
  " basic match \"meta( random mask " ++ toString randomRedirectMask ++ " lt "
    ++ toString (randomRedirectBoundary p) ++ " ) \" "

/-- Choice of mirred action (lines 407-412 / 454-459 / 560-565): `fault_args[1]`
when present and equal to `mirror` or `redirect`, `redirect` otherwise. -/
def redirectOrMirror (fa : List String) : String :=
  match fa.get? 1 with
  | some r => if r = "mirror" ∨ r = "redirect" then r else "redirect"
  | none => "redirect"

/-- `LinkInjector.make_nics_injection_command` (lines 374-485): the single
command for an unfiltered (`protocol = any`) fault.  `none` models both the
Python `None` result (unknown pattern, redirect with a verb that is neither
`add` nor `del`) and an exception while indexing `fault_args` /
`fault_pattern_args`; in every such case the caller's `call(command)` crashes
the task. -/
def makeNicsInjectionCommand (node_pid : Option Nat) (device ft fp : String)
    (fpa : List Int) (fa : List String) (tc_cmd : String) : Option String :=
  let base := linkBaseCommand node_pid
  let baseNetem := base ++ "tc qdisc " ++ tc_cmd ++ " dev " ++ device ++ " root netem "
  if pyIn "random" fp then
    if pyIn "delay" ft then
      match fpa.get? 0, fa.get? 0 with
      | some p, some d =>
          some (baseNetem ++ ft ++ " " ++ d ++ " reorder " ++ toString (100 - p) ++ "%")
      | _, _ => none
    else if pyIn "redirect" ft then
      match fpa.get? 0, fa.get? 0 with
      | some p, some dest =>
          let rm := redirectOrMirror fa
          if pyIn "add" tc_cmd then
            let filterString := randomRedirectFilterString p
            let prep := base ++ "tc qdisc " ++ tc_cmd ++ " dev " ++ device ++ " handle ffff: ingress "
            some (prep ++ " ; " ++
              (base ++ "tc filter " ++ tc_cmd ++ " dev " ++ device ++ " parent ffff: " ++ filterString
                ++ " " ++ " action mirred egress " ++ rm ++ " dev " ++ dest))
          else if pyIn "del" tc_cmd then
            some (base ++ "tc qdisc " ++ tc_cmd ++ " dev " ++ device ++ " ingress ")
          else none
      | _, _ => none
    else
      match fpa.get? 0 with
      | some p => some (baseNetem ++ ft ++ " " ++ toString p ++ "%")
      | none => none
  else if pyIn "persistent" fp then
    if pyIn "delay" ft then
      match fa.get? 0 with
      | some d => some (baseNetem ++ ft ++ " " ++ d)
      | none => none
    else if pyIn "bottleneck" ft then
      match fa.get? 0 with
      | some rate =>
          let burst := if 2 < fa.length then fa.getD 1 "" else if fa.length = 2 then fa.getD 1 "" else "1600"
          let lim := if 2 < fa.length then fa.getD 2 "" else "3000"
          some (base ++ "tc qdisc " ++ tc_cmd ++ " dev " ++ device ++ " root tbf rate " ++ rate
            ++ "kbit burst " ++ burst ++ " limit " ++ lim)
      | none => none
    else if pyIn "redirect" ft then
      match fa.get? 0 with
      | some dest =>
          let rm := redirectOrMirror fa
          if pyIn "add" tc_cmd then
            let prep := base ++ "tc qdisc " ++ tc_cmd ++ " dev " ++ device ++ " handle ffff: ingress "
            some (prep ++ " ; " ++
              (base ++ "tc filter " ++ tc_cmd ++ " dev " ++ device ++ " parent ffff: matchall "
                ++ " action mirred egress " ++ rm ++ " dev " ++ dest))
          else if pyIn "del" tc_cmd then
            some (base ++ "tc qdisc " ++ tc_cmd ++ " dev " ++ device ++ " ingress ")
          else none
      | none => none
    else if pyIn "down" ft then
      if pyIn "add" tc_cmd then some (base ++ "ifconfig " ++ device ++ " down")
      else if pyIn "del" tc_cmd then some (base ++ "ifconfig " ++ device ++ " up")
      else none
    else
      some (baseNetem ++ ft ++ " 100%")
  else
    none

/-- Step 2 of `make_filtered_nics_injection_commands` (lines 519-530): one u32
classifier per destination port, one per source port, and a protocol-only
classifier exactly when both port arguments are `None` (`is None` test; empty
lists are falsy for the loops yet are not `None`, so they produce nothing). -/
def classifierCmds (bq protoCmd : String) (dst src : Option (List Nat)) : List String :=
  (dst.getD []).map
      (fun p => bq ++ protoCmd ++ " " ++ ("match ip dport " ++ Nat.repr p ++ " 0xffff") ++ " flowid 1:1")
    ++ (src.getD []).map
      (fun p => bq ++ protoCmd ++ " " ++ ("match ip sport " ++ Nat.repr p ++ " 0xffff") ++ " flowid 1:1")
    ++ (if dst.isNone ∧ src.isNone then [bq ++ protoCmd ++ " flowid 1:1"] else [])

/-- `LinkInjector.make_filtered_nics_injection_commands` (lines 487-594): the
command list for a protocol-filtered fault.  `none` models a raised exception
(unknown protocol key, missing arguments). -/
def makeFilteredNicsInjectionCommands (node_pid : Option Nat) (fp : String) (fpa : List Int)
    (ft : String) (fa : List String) (device proto : String)
    (dst src : Option (List Nat)) (enable : Bool) : Option (List String) :=
  let base := linkBaseCommand node_pid
  if enable then
    match targetProtocolTable proto with
    | none => none
    | some ipnum =>
      let root := if pyIn "redirect" ft
        then base ++ "tc qdisc add dev " ++ device ++ " handle ffff: ingress "
        else base ++ "tc qdisc add dev " ++ device ++ " root handle 1: prio"
      let bq := base ++ "tc filter add dev " ++ device ++ " parent 1:0 protocol ip prio 1 u32 "
      let protoCmd := "match ip protocol " ++ ipnum ++ " 0xff"
      let cmdList := root :: classifierCmds bq protoCmd dst src
      if pyIn "random" fp then
        if pyIn "delay" ft then
          match fpa.get? 0, fa.get? 0 with
          | some p, some d =>
              some (cmdList ++ [base ++ "tc qdisc add dev " ++ device ++ " parent 1:1 handle 2: netem "
                ++ ft ++ " " ++ d ++ " reorder " ++ toString (100 - p) ++ "%"])
          | _, _ => none
        else
          match fpa.get? 0 with
          | some p =>
              some (cmdList ++ [base ++ "tc qdisc add dev " ++ device ++ " parent 1:1 handle 2: netem "
                ++ ft ++ " " ++ toString p ++ "%"])
          | none => none
      else if pyIn "persistent" fp then
        if pyIn "bottleneck" ft then
          match fa.get? 0 with
          | some rate =>
              let burst := if 2 < fa.length then fa.getD 1 "" else if fa.length = 2 then fa.getD 1 "" else "1600"
              let lim := if 2 < fa.length then fa.getD 2 "" else "3000"
              some (cmdList ++ [base ++ "tc qdisc add dev " ++ device ++ " parent 1:1 handle 2: tbf rate "
                ++ rate ++ "kbit burst " ++ burst ++ " limit " ++ lim])
          | none => none
        else if pyIn "redirect" ft then
          match fa.get? 0 with
          | some dest =>
              let app := " action mirred egress " ++ redirectOrMirror fa ++ " dev " ++ dest
              some (cmdList.map (fun c =>
                if pyIn "match" c then strReplace c "parent 1:0" "parent ffff:" ++ app else c))
          | none => none
        else
          match (if pyIn "delay" ft then fa.get? 0 else some "100%") with
          | some tcArg =>
              some (cmdList ++ [base ++ "tc qdisc add dev " ++ device ++ " parent 1:1 handle 2: netem "
                ++ ft ++ " " ++ tcArg])
          | none => none
      else
        some cmdList
  else
    if pyIn "redirect" ft then
      some [base ++ "tc qdisc del dev " ++ device ++ " ingress "]
    else
      some [base ++ "tc qdisc del dev " ++ device ++ " root handle 1: prio"]

structure LinkCfg where
  device : String
  pid : Option Nat
  tag : String
  faultType : String
  faultPattern : String
  patternArgs : List Int
  faultArgs : List String
  protocol : String
  dstPorts : Option (List Nat)
  srcPorts : Option (List Nat)
  preMs : Int
  injMs : Int
  postMs : Int
deriving DecidableEq

/-- `LinkInjector.inject_nics` (lines 596-677): one executed command plus one
logger call for `any`-protocol faults; one executed command plus one logger
call per synthesized command for filtered faults.  The fault pattern and
pattern args are parameters because burst and degradation re-enter with
`'persistent'` / `'random'` and substituted arguments. -/
def injectNicsEvents (cfg : LinkCfg) (fp : String) (fpa : List Int) (enable : Bool) :
    Option (List Ev) :=
  if pyIn "any" cfg.protocol then
    match makeNicsInjectionCommand cfg.pid cfg.device cfg.faultType fp fpa cfg.faultArgs
        (if enable then "add" else "del") with
    | none => none
    | some cmd =>
        some [Ev.exec cmd, if enable then Ev.active cfg.tag cmd else Ev.inactive cfg.tag]
  else
    match makeFilteredNicsInjectionCommands cfg.pid fp fpa cfg.faultType cfg.faultArgs
        cfg.device cfg.protocol cfg.dstPorts cfg.srcPorts enable with
    | none => none
    | some cmds =>
        some (cmds.flatMap (fun c =>
          [Ev.exec c, if enable then Ev.active cfg.tag c else Ev.inactive cfg.tag]))

/-- `LinkInjector._inject_persistent_or_random_pattern` (lines 333-352). -/
def linkPersistentOrRandomTrace (cfg : LinkCfg) : Option (List Ev) :=
  match injectNicsEvents cfg cfg.faultPattern cfg.patternArgs true with
  | none => none
  | some e1 =>
    match injectNicsEvents cfg cfg.faultPattern cfg.patternArgs false with
    | none => none
    | some e2 => some (e1 ++ [Ev.sleep cfg.injMs] ++ e2)

/-- `LinkInjector._inject_burst_pattern` (lines 241-274): with fewer than two
pattern args the source logs an error but still reads
`burst_config[0]`/`burst_config[1]`, raising IndexError (`none`); the burst
cycles re-enter `inject_nics` with the `'persistent'` pattern (the `['']`
placeholder argument list is never read there and is dropped here). -/
def linkBurstTrace (cfg : LinkCfg) : Option (List Ev) :=
  match cfg.patternArgs.get? 0, cfg.patternArgs.get? 1 with
  | some durMs, some perMs =>
    if perMs = 0 then none
    else
      let n := (Int.tdiv cfg.injMs perMs).toNat
      match injectNicsEvents cfg "persistent" [] true with
      | none => none
      | some onEv =>
        match injectNicsEvents cfg "persistent" [] false with
        | none => none
        | some offEv =>
          some (List.flatten (List.replicate n
            (onEv ++ [Ev.sleep durMs] ++ offEv ++ [Ev.sleep (perMs - durMs)])))
  | _, _ => none

/-- Parameter handling of `LinkInjector._inject_degradation_pattern` (lines
280-301): `(step, stepLengthMs, start, end)` with tail-wise defaults
`(5, 1000, 0, 100)` and the end value clamped to 100. -/
def linkDegradationParams (fpa : List Int) : Int × Int × Int × Int :=
  let endD := match fpa.get? 3 with
    | some e => min e 100
    | none => 100
  let start := match fpa.get? 2 with
    | some s => s
    | none => 0
  let stepLenMs := match fpa.get? 1 with
    | some l => l
    | none => 1000
  let step := match fpa.get? 0 with
    | some s => s
    | none => 5
  (step, stepLenMs, start, endD)

/-- One update of the degradation intensity (line 327-329 for the link
injector, lines 895-896 and 912-914 for the node injector): add the step, then
clamp to the end value. -/
def degradationStep (step endD v : Int) : Int := min (v + step) endD

/-- The intensity submitted at the n-th degradation step. -/
def degradationSeq (start step endD : Int) : Nat → Int
  | 0 => start
  | n + 1 => degradationStep step endD (degradationSeq start step endD n)

/-- The intensities the link injector submits across `n` degradation steps. -/
def linkDegIntensities (fpa : List Int) (n : Nat) : List Int :=
  let (step, _, start, endD) := linkDegradationParams fpa
  (List.range n).map (degradationSeq start step endD)

/-- `LinkInjector._inject_degradation_pattern` (lines 276-331): per step the
current intensity is submitted to `inject_nics` with the `'random'` pattern
for enable and disable, then stepped.  A zero step length raises
ZeroDivisionError. -/
def linkDegradationTrace (cfg : LinkCfg) : Option (List Ev) :=
  let (step, stepLenMs, start, endD) := linkDegradationParams cfg.patternArgs
  if stepLenMs = 0 then none
  else
    let n := (Int.tdiv cfg.injMs stepLenMs).toNat
    match (List.range n).mapM (fun i =>
        let v := degradationSeq start step endD i
        match injectNicsEvents cfg "random" [v] true with
        | none => none
        | some e1 =>
          match injectNicsEvents cfg "random" [v] false with
          | none => none
          | some e2 => some (e1 ++ [Ev.sleep stepLenMs] ++ e2)) with
    | none => none
    | some evss => some evss.flatten

inductive LinkPhase where
  | burst
  | degradation
  | persistentOrRandom
deriving DecidableEq

/-- The dispatch of `LinkInjector.do_injection` (lines 361-366): substring
tests on the pattern, with no branch for unknown patterns — everything that
contains neither `burst` nor `degradation` runs the persistent-or-random
path. -/
def linkDispatch (fp : String) : LinkPhase :=
  if pyIn "burst" fp then .burst
  else if pyIn "degradation" fp then .degradation
  else .persistentOrRandom

/-- `LinkInjector.do_injection` (lines 357-372). -/
def linkDoInjectionTrace (cfg : LinkCfg) : Option (List Ev) :=
  match (match linkDispatch cfg.faultPattern with
         | .burst => linkBurstTrace cfg
         | .degradation => linkDegradationTrace cfg
         | .persistentOrRandom => linkPersistentOrRandomTrace cfg) with
  | none => none
  | some mid => some ([Ev.sleep cfg.preMs] ++ mid ++ [Ev.sleep cfg.postMs])

/-! ## NodeInjector -/

/-- `NodeInjector.execute_command_for_node` prefix (line 741). -/
def nodeBaseCommand (pid : Nat) : String :=
  "nsenter --target " ++ Nat.repr pid ++ " --net --pid --cgroup "

/-- The replacement text of the pipe rewrite (line 746); unlike the prefix it
has no trailing space. -/
def nodePipeReplacement (pid : Nat) : String :=
  "nsenter --target " ++ Nat.repr pid ++ " --net --pid --cgroup"

/-- Lines 741-746: prefix plus pipe rewrite (the source again drops the `|`). -/
def nodeFullCommand (pid : Nat) (cmd : String) : String :=
  let full := nodeBaseCommand pid ++ cmd
  if pyIn "|" full then charReplace full '|' (nodePipeReplacement pid) else full

/-- `NodeInjector.execute_command_for_node` (lines 729-765): a `None` command
only notifies the logger (with a dummy text on activation); otherwise the
prefixed command runs and the logger is notified with the unprefixed text. -/
def nodeExecEvents (pid : Nat) (tag : String) (cmd : Option String) (enable : Bool) : List Ev :=
  match cmd with
  | none => [if enable then Ev.active tag "Dummy command, no action taken" else Ev.inactive tag]
  | some c => [Ev.exec (nodeFullCommand pid c),
               if enable then Ev.active tag c else Ev.inactive tag]

structure NodeCfg where
  pid : Nat
  tag : String
  faultType : String
  faultArgs : List String
  faultPattern : String
  patternArgs : List Int
  /-- The `(cpu.cfs_quota_us, cpu.cfs_period_us)` pair `_get_cgroup_size`
  parses out of `cgget`; `none` when the lookup fails (the method returns
  Python `None`). -/
  cgroupQuotaPeriod : Option (Int × Int)
  preMs : Int
  injMs : Int
  postMs : Int
deriving DecidableEq

/-- `NodeInjector._get_cgroup_size` (lines 767-783) as an exact fraction
`quota / period`; a zero period raises ZeroDivisionError. -/
def nodeCgroupSize (cfg : NodeCfg) : Option (Int × Int) :=
  match cfg.cgroupQuotaPeriod with
  | none => none
  | some (q, p) => if p = 0 then none else some (q, p)

/-- `stress_percentage_applied_to_cgroup = pct * quota/period`,
`num_cpus = ceil(stress / 100)`,
`stress_per_cpu = int(stress / num_cpus) if num_cpus > 0 else 0`
(lines 826-828, 905-907, 952-954), in exact rational arithmetic:
returns `(stress_per_cpu, num_cpus)`. -/
def stressParams (pct q p : Int) : Int × Int :=
  let nC := -(Int.ediv (-(pct * q)) (100 * p))
  let perCpu := if 0 < nC then Int.tdiv (pct * q) (p * nC) else 0
  (perCpu, nC)

/-- The stress-ng command template (lines 831, 903, 956). -/
def stressCommandText (perCpu durS nCpus : Int) : String :=
  "stress-ng -l " ++ toString perCpu ++ " -t " ++ toString durS ++ " --cpu " ++ toString nCpus
    ++ " --cpu-method int64longdouble &"

/-- `NodeInjector._inject_burst` parameter handling (lines 788-795), identical
to the Multi injector's: fewer than two args logs an error and defaults to
1 s per 2 s. -/
def nodeBurstParams (fpa : List Int) : Int × Int :=
  if fpa.length < 2 then (1000, 2000) else (fpa.getD 0 0, fpa.getD 1 0)

/-- Start/end command selection shared by `_inject_burst` (lines 799-809) and
`_inject_degradation` (lines 869-879): both commands, only the start command,
or none of them (with an error log). -/
def nodeCustomStartEnd (fa : List String) : Option String × Option String :=
  if 2 ≤ fa.length then (fa.get? 0, fa.get? 1)
  else if 1 ≤ fa.length then (fa.get? 0, none)
  else (none, none)

/-- `NodeInjector._inject_burst` (lines 785-841). -/
def nodeBurstTrace (cfg : NodeCfg) : Option (List Ev) :=
  let (durMs, perMs) := nodeBurstParams cfg.patternArgs
  if perMs = 0 then none
  else
    let n := (Int.tdiv cfg.injMs perMs).toNat
    if cfg.faultType = "custom" then
      let (sc, ec) := nodeCustomStartEnd cfg.faultArgs
      some (List.flatten (List.replicate n
        (nodeExecEvents cfg.pid cfg.tag sc true ++ [Ev.sleep durMs] ++
         nodeExecEvents cfg.pid cfg.tag ec false ++ [Ev.sleep (perMs - durMs)])))
    else if cfg.faultType = "stress_cpu" then
      let durS := max 1 (Int.tdiv durMs 1000)
      match nodeCgroupSize cfg with
      | none => none
      | some (q, p) =>
        match (match cfg.faultArgs.get? 0 with
               | some s => pyParseInt s
               | none => some 50) with
        | none => none
        | some pct =>
          let (perCpu, nC) := stressParams pct q p
          let cmd := stressCommandText perCpu durS nC
          some (List.flatten (List.replicate n
            (nodeExecEvents cfg.pid cfg.tag (some cmd) true ++ [Ev.sleep (1000 * durS)] ++
             nodeExecEvents cfg.pid cfg.tag none false ++ [Ev.sleep (perMs - 1000 * durS)])))
    else
      some []

/-- `NodeInjector._inject_degradation` parameter handling (lines 846-864):
like the link injector's but with no clamp of the end value to 100. -/
def nodeDegradationParams (fpa : List Int) : Int × Int × Int × Int :=
  let endD := match fpa.get? 3 with
    | some e => e
    | none => 100
  let start := match fpa.get? 2 with
    | some s => s
    | none => 0
  let stepLenMs := match fpa.get? 1 with
    | some l => l
    | none => 1000
  let step := match fpa.get? 0 with
    | some s => s
    | none => 5
  (step, stepLenMs, start, endD)

/-- The intensities the node injector submits across `n` degradation steps. -/
def nodeDegIntensities (fpa : List Int) (n : Nat) : List Int :=
  let (step, _, start, endD) := nodeDegradationParams fpa
  (List.range n).map (degradationSeq start step endD)

/-- `NodeInjector._inject_degradation` (lines 843-916).  For custom faults a
missing start command crashes at `None.count` (AttributeError); a start
template with two or more placeholders logs a usage error (lines 881-885) and
then `str.format` raises IndexError at the first step. -/
def nodeDegradationTrace (cfg : NodeCfg) : Option (List Ev) :=
  let (step, stepLenMs, start, endD) := nodeDegradationParams cfg.patternArgs
  if stepLenMs = 0 then none
  else
    let n := (Int.tdiv cfg.injMs stepLenMs).toNat
    if cfg.faultType = "custom" then
      match nodeCustomStartEnd cfg.faultArgs with
      | (none, _) => none
      | (some sc, ec) =>
        match (List.range n).mapM (fun i =>
            let v := degradationSeq start step endD i
            match pyFormat1 sc v with
            | none => none
            | some startCmd =>
                some (nodeExecEvents cfg.pid cfg.tag (some startCmd) true ++ [Ev.sleep stepLenMs]
                  ++ nodeExecEvents cfg.pid cfg.tag ec false)) with
        | none => none
        | some evss => some evss.flatten
    else if cfg.faultType = "stress_cpu" then
      match nodeCgroupSize cfg with
      | none => none
      | some (q, p) =>
        some (List.flatten ((List.range n).map (fun i =>
          let v := degradationSeq start step endD i
          let (perCpu, nC) := stressParams v q p
          let cmd := stressCommandText perCpu (Int.tdiv stepLenMs 1000) nC
          nodeExecEvents cfg.pid cfg.tag (some cmd) true ++ [Ev.sleep (1000 * Int.tdiv stepLenMs 1000)]
            ++ nodeExecEvents cfg.pid cfg.tag none false)))
    else
      some []

/-- The command pair of `NodeInjector._inject_persistent` for custom faults
(lines 922-936).  The source tests `len < 2` before `len < 1`, so the
middle (`len < 1`) arm can never run: an empty list takes the first arm and
crashes on `fault_args[0]` (IndexError, `none`). -/
def nodePersistentCustomCommands (fa : List String) : Option (Option String × Option String) :=
  if fa.length < 2 then
    match fa.get? 0 with
    | some s => some (some s, none)
    | none => none
  else if fa.length < 1 then
    some (none, none)
  else
    match fa.get? 0, fa.get? 1 with
    | some s, some e => some (some s, some e)
    | _, _ => none

inductive PersistentCustomBranch where
  | startOnly
  | noCommands
  | both
deriving DecidableEq

/-- Which arm of the `if len < 2 / elif len < 1 / else` chain (lines 924-936)
runs for a given argument list. -/
def nodePersistentCustomBranch (fa : List String) : PersistentCustomBranch :=
  if fa.length < 2 then .startOnly
  else if fa.length < 1 then .noCommands
  else .both

/-- `NodeInjector._inject_persistent` (lines 918-963).  The stress command
interpolates `injection_time` directly; whole-second durations are modelled. -/
def nodePersistentTrace (cfg : NodeCfg) : Option (List Ev) :=
  if cfg.faultType = "custom" then
    match nodePersistentCustomCommands cfg.faultArgs with
    | none => none
    | some (sc, ec) =>
        some (nodeExecEvents cfg.pid cfg.tag sc true ++ [Ev.sleep cfg.injMs] ++
          nodeExecEvents cfg.pid cfg.tag ec false)
  else if cfg.faultType = "stress_cpu" then
    match nodeCgroupSize cfg with
    | none => none
    | some (q, p) =>
      match (match cfg.faultArgs.get? 0 with
             | some s => pyParseInt s
             | none => some 50) with
      | none => none
      | some pct =>
        let (perCpu, nC) := stressParams pct q p
        let cmd := stressCommandText perCpu (Int.tdiv cfg.injMs 1000) nC
        some (nodeExecEvents cfg.pid cfg.tag (some cmd) true ++ [Ev.sleep cfg.injMs] ++
          nodeExecEvents cfg.pid cfg.tag none false)
  else
    some []

/-- `NodeInjector.do_injection` (lines 965-979): equality dispatch with an
error-logging arm for unknown patterns; pre/post sleeps always happen unless
the active phase raises. -/
def nodeDoInjectionTrace (cfg : NodeCfg) : Option (List Ev) :=
  match (if cfg.faultPattern = "burst" then nodeBurstTrace cfg
         else if cfg.faultPattern = "degradation" then nodeDegradationTrace cfg
         else if cfg.faultPattern = "persistent" then nodePersistentTrace cfg
         else some []) with
  | none => none
  | some mid => some ([Ev.sleep cfg.preMs] ++ mid ++ [Ev.sleep cfg.postMs])

def c4LinkCfg : LinkCfg :=
  { device := "eth0"
    pid := none
    tag := "t"
    faultType := "loss"
    faultPattern := "persistent"
    patternArgs := []
    faultArgs := []
    protocol := "TCP"
    dstPorts := some [80]
    srcPorts := none
    preMs := 0
    injMs := 2000
    postMs := 0 }

def c5LinkCfg : LinkCfg :=
  { device := "eth0"
    pid := some 100
    tag := "t"
    faultType := "loss"
    faultPattern := "frobnicate"
    patternArgs := []
    faultArgs := []
    protocol := "any"
    dstPorts := none
    srcPorts := none
    preMs := 1000
    injMs := 2000
    postMs := 3000 }

def c5MultiCfg : MultiCfg :=
  { pid := 9
    tag := "t"
    faultPattern := "frobnicate"
    patternArgs := []
    injectCmd := "I"
    ejectCmd := "E"
    preMs := 1000
    injMs := 2000
    postMs := 3000 }

def c5NodeCfg : NodeCfg :=
  { pid := 9
    tag := "t"
    faultType := "custom"
    faultArgs := ["a", "b"]
    faultPattern := "frobnicate"
    patternArgs := []
    cgroupQuotaPeriod := none
    preMs := 1000
    injMs := 2000
    postMs := 3000 }

def c6LinkCfg : LinkCfg :=
  { device := "eth0"
    pid := some 100
    tag := "t"
    faultType := "loss"
    faultPattern := "burst"
    patternArgs := []
    faultArgs := []
    protocol := "any"
    dstPorts := none
    srcPorts := none
    preMs := 0
    injMs := 5000
    postMs := 0 }

def c6MultiCfg : MultiCfg :=
  { pid := 9
    tag := "t"
    faultPattern := "burst"
    patternArgs := []
    injectCmd := "I"
    ejectCmd := "E"
    preMs := 0
    injMs := 5000
    postMs := 0 }

def c6NodeCfg : NodeCfg :=
  { pid := 9
    tag := "t"
    faultType := "custom"
    faultArgs := ["a", "b"]
    faultPattern := "burst"
    patternArgs := []
    cgroupQuotaPeriod := none
    preMs := 0
    injMs := 5000
    postMs := 0 }

def c8TwoPlaceholderCfg : NodeCfg :=
  { pid := 5
    tag := "t"
    faultType := "custom"
    faultArgs := ["set_rate \x7b\x7d \x7b\x7d &", "clear_rate"]
    faultPattern := "degradation"
    patternArgs := [10, 1000, 0, 50]
    cgroupQuotaPeriod := none
    preMs := 0
    injMs := 5000
    postMs := 0 }

def c8OnePlaceholderCfg : NodeCfg :=
  { pid := 5
    tag := "t"
    faultType := "custom"
    faultArgs := ["set_rate \x7b\x7d &", "clear_rate"]
    faultPattern := "degradation"
    patternArgs := [10, 1000, 0, 50]
    cgroupQuotaPeriod := none
    preMs := 0
    injMs := 5000
    postMs := 0 }

def c10NodeCfg : NodeCfg :=
  { pid := 5
    tag := "t"
    faultType := "custom"
    faultArgs := []
    faultPattern := "persistent"
    patternArgs := []
    cgroupQuotaPeriod := none
    preMs := 0
    injMs := 2000
    postMs := 0 }

/-! ## General lemmas -/

theorem strData_append (a b : String) : (a ++ b).data = a.data ++ b.data := rfl

theorem data_asString (l : List Char) : (List.asString l).data = l := rfl

theorem isPrefixOf_self_append (l t : List Char) : l.isPrefixOf (l ++ t) = true := by
  induction l with
  | nil => simp [List.isPrefixOf]
  | cons c cs ih => simp [List.isPrefixOf, ih]

theorem strStartsWith_append (p t : String) : strStartsWith p (p ++ t) = true := by
  simp only [strStartsWith, strData_append]
  exact isPrefixOf_self_append p.data t.data

theorem strAppend_assoc (a b c : String) : a ++ b ++ c = a ++ (b ++ c) :=
  congrArg String.mk (List.append_assoc a.data b.data c.data)

theorem exists_append_of_isPrefixOf : ∀ (p s : List Char), p.isPrefixOf s = true → ∃ t, s = p ++ t := by
  intro p
  induction p with
  | nil => intro s _; exact ⟨s, rfl⟩
  | cons c cs ih =>
    intro s h
    cases s with
    | nil => simp [List.isPrefixOf] at h
    | cons d ds =>
      simp only [List.isPrefixOf, Bool.and_eq_true, beq_iff_eq] at h
      obtain ⟨rfl, h2⟩ := h
      obtain ⟨t, rfl⟩ := ih ds h2
      exact ⟨t, rfl⟩

theorem exists_of_strStartsWith (p s : String) (h : strStartsWith p s = true) :
    ∃ t, s = p ++ t := by
  obtain ⟨t, ht⟩ := exists_append_of_isPrefixOf p.data s.data h
  exact ⟨⟨t⟩, congrArg String.mk ht⟩

theorem listReplaceAux_skip (pat rep : List Char) (c0 : Char) (tl : List Char)
    (hpat : pat = c0 :: tl) :
    ∀ (pre : List Char) (f : Nat) (rest : List Char), (∀ c ∈ pre, c ≠ c0) →
      listReplaceAux pat rep (pre.length + f) (pre ++ rest) =
        pre ++ listReplaceAux pat rep f rest := by
  intro pre
  induction pre with
  | nil => intro f rest _; simp
  | cons c cs ih =>
    intro f rest h
    have hc : c ≠ c0 := h c (by simp)
    have hnp : pat.isPrefixOf (c :: (cs ++ rest)) = false := by
      subst hpat
      simp only [List.isPrefixOf, Bool.and_eq_false_iff]
      left
      simp [beq_eq_false_iff_ne]
      exact fun heq => hc heq.symm
    have : (c :: cs).length + f = (cs.length + f) + 1 := by simp; omega
    rw [this]
    show listReplaceAux pat rep ((cs.length + f) + 1) (c :: (cs ++ rest)) = _
    rw [listReplaceAux, hnp]
    simp only [Bool.false_eq_true, if_false, List.cons_append, List.cons.injEq, true_and]
    exact ih f rest (fun x hx => h x (by simp [hx]))

theorem strReplace_shift (pre rest : String) (h : ∀ c ∈ pre.data, c ≠ 'p') :
    strReplace (pre ++ rest) "parent 1:0" "parent ffff:" =
      pre ++ strReplace rest "parent 1:0" "parent ffff:" := by
  have key := listReplaceAux_skip ("parent 1:0").data ("parent ffff:").data 'p' ("arent 1:0").data
    rfl pre.data rest.data.length rest.data h
  show String.mk (listReplaceAux ("parent 1:0").data ("parent ffff:").data
      (pre ++ rest).data.length (pre ++ rest).data) = _
  have h1 : (pre ++ rest).data = pre.data ++ rest.data := rfl
  have h2 : (pre ++ rest).data.length = pre.data.length + rest.data.length := by
    rw [h1, List.length_append]
  rw [h2, h1, key]
  rfl

theorem digitChar_ne_p (m : Nat) (h : m < 10) : Nat.digitChar m ≠ 'p' := by
  interval_cases m <;> decide

theorem toDigitsCore_ne_p (f : Nat) : ∀ (n : Nat) (ds : List Char),
    (∀ c ∈ ds, c ≠ 'p') → ∀ c ∈ Nat.toDigitsCore 10 f n ds, c ≠ 'p' := by
  induction f with
  | zero =>
    intro n ds h c hc
    rw [Nat.toDigitsCore] at hc
    exact h c hc
  | succ f ih =>
    intro n ds h c hc
    rw [Nat.toDigitsCore] at hc
    by_cases hz : n / 10 = 0
    · simp only [hz, if_true] at hc
      rcases List.mem_cons.mp hc with h1 | h1
      · subst h1; exact digitChar_ne_p _ (Nat.mod_lt _ (by norm_num))
      · exact h c h1
    · simp only [hz, if_false] at hc
      exact ih (n / 10) (Nat.digitChar (n % 10) :: ds)
        (by
          intro x hx
          rcases List.mem_cons.mp hx with h1 | h1
          · subst h1; exact digitChar_ne_p _ (Nat.mod_lt _ (by norm_num))
          · exact h x h1)
        c hc

theorem natRepr_ne_p (n : Nat) : ∀ c ∈ (Nat.repr n).data, c ≠ 'p' := by
  intro c hc
  have hd : (Nat.repr n).data = Nat.toDigitsCore 10 (n + 1) n [] := rfl
  rw [hd] at hc
  exact toDigitsCore_ne_p (n + 1) n [] (by simp) c hc

theorem linkBase_ne_p (pid : Nat) : ∀ c ∈ (linkBaseCommand (some pid)).data, c ≠ 'p' := by
  have h1 : ∀ c ∈ ("nsenter --target " : String).data, c ≠ 'p' := by decide
  have h2 : ∀ c ∈ (" --net " : String).data, c ≠ 'p' := by decide
  intro c hc
  have hd : (linkBaseCommand (some pid)).data =
      ("nsenter --target " : String).data ++ ((Nat.repr pid).data ++ (" --net " : String).data) := by
    show (("nsenter --target " ++ Nat.repr pid ++ " --net " : String)).data = _
    rw [strAppend_assoc]
    rfl
  rw [hd] at hc
  rcases List.mem_append.mp hc with h | h
  · exact h1 c h
  · rcases List.mem_append.mp h with h | h
    · exact natRepr_ne_p pid c h
    · exact h2 c h

theorem classifierCmds_shape (bq protoCmd : String) (dst src : Option (List Nat)) :
    ∀ c ∈ classifierCmds bq protoCmd dst src, ∃ t, c = bq ++ t := by
  intro c hc
  unfold classifierCmds at hc
  rcases List.mem_append.mp hc with h | h
  · rcases List.mem_append.mp h with h | h
    · rcases List.mem_map.mp h with ⟨port, _, rfl⟩
      exact ⟨protoCmd ++ (" " ++ (("match ip dport " ++ Nat.repr port ++ " 0xffff") ++ " flowid 1:1")),
        by simp only [strAppend_assoc]⟩
    · rcases List.mem_map.mp h with ⟨port, _, rfl⟩
      exact ⟨protoCmd ++ (" " ++ (("match ip sport " ++ Nat.repr port ++ " 0xffff") ++ " flowid 1:1")),
        by simp only [strAppend_assoc]⟩
  · split at h
    · rcases List.mem_singleton.mp h with rfl
      exact ⟨protoCmd ++ " flowid 1:1", by simp only [strAppend_assoc]⟩
    · simp at h

theorem startsWith_redirect_map (base app c' : String)
    (hp : ∀ ch ∈ base.data, ch ≠ 'p')
    (h : strStartsWith base c' = true) :
    strStartsWith base
      (if pyIn "match" c' = true then strReplace c' "parent 1:0" "parent ffff:" ++ app else c') =
      true := by
  obtain ⟨t, rfl⟩ := exists_of_strStartsWith base c' h
  split
  · rw [strReplace_shift base t hp, strAppend_assoc]
    exact strStartsWith_append _ _
  · exact h

theorem listContainsSub_append_self (pat A B : List Char) :
    listContainsSub pat (A ++ (pat ++ B)) = true := by
  induction A with
  | nil =>
    rw [List.nil_append]
    rcases hpb : pat ++ B with _ | ⟨c, rest⟩
    · have hp : pat = [] := (List.append_eq_nil.mp hpb).1
      subst hp
      rfl
    · rw [listContainsSub, ← hpb, isPrefixOf_self_append, Bool.true_or]
  | cons a A ih =>
    rw [List.cons_append, listContainsSub, ih, Bool.or_true]

theorem pyIn_append_self (pat A B : String) : pyIn pat (A ++ (pat ++ B)) = true := by
  unfold pyIn
  rw [strData_append, strData_append]
  exact listContainsSub_append_self pat.data A.data B.data

theorem countP_flatMap_pair (p : Ev → Bool) (mk : String → Ev) (cmds : List String)
    (hexec : ∀ c, p (Ev.exec c) = false) :
    (cmds.flatMap (fun c => [Ev.exec c, mk c])).countP p =
      cmds.countP (fun c => p (mk c)) := by
  induction cmds with
  | nil => rfl
  | cons c cs ih =>
    simp only [List.flatMap_cons, List.countP_append, List.countP_cons, hexec c, ih,
      List.countP_nil]
    cases hp : p (mk c) <;> simp [List.countP_cons, hp, Nat.add_comm]

/-! ## The claims -/

/-- C1 (code bug): the pipe rewrite of `execute_command_for_node` replaces each
`|` of the already-prefixed command with the bare nsenter prefix, so the pipe
itself is deleted: on the Multi injector's own tcset pipeline the rewritten
command holds no `|` at all (breaking the pipeline), even though it does hold
`1 + count(pipe)` occurrences of `nsenter`.  The Node injector behaves the
same way. -/
theorem c1_pipe_rewrite_drops_pipe :
    multiStartCommand "x" = "echo 'x' | tcset /dev/stdin --import-setting"
  ∧ strCount "|" (multiStartCommand "x") = 1
  ∧ multiFullCommand 7 (multiStartCommand "x") =
      "nsenter --target 7 --net --pid echo 'x' nsenter --target 7 --net --pid  tcset /dev/stdin --import-setting"
  ∧ strCount "|" (multiFullCommand 7 (multiStartCommand "x")) = 0
  ∧ strCount "nsenter" (multiFullCommand 7 (multiStartCommand "x")) = 2
  ∧ strCount "|" (nodeFullCommand 7 "echo a | grep b") = 0
  ∧ strCount "nsenter" (nodeFullCommand 7 "echo a | grep b") = 2 := by decide

/-- C2 counterexample: with namespace pid 100 the unfiltered link command
begins with `nsenter --target 100 --net ` and does not carry the `--pid`
flag the claim requires; the filtered list gets the same prefix. -/
theorem c2_link_base_cex :
    makeNicsInjectionCommand (some 100) "eth0" "loss" "persistent" [] [] "add" =
      some "nsenter --target 100 --net tc qdisc add dev eth0 root netem loss 100%"
  ∧ strStartsWith "nsenter --target 100 --net --pid "
      "nsenter --target 100 --net tc qdisc add dev eth0 root netem loss 100%" = false
  ∧ (makeFilteredNicsInjectionCommands (some 100) "persistent" [] "loss" [] "eth0" "TCP"
        none none true).getD [] =
      ["nsenter --target 100 --net tc qdisc add dev eth0 root handle 1: prio",
       "nsenter --target 100 --net tc filter add dev eth0 parent 1:0 protocol ip prio 1 u32 match ip protocol 6 0xff flowid 1:1",
       "nsenter --target 100 --net tc qdisc add dev eth0 parent 1:1 handle 2: netem loss 100%"] := by
  decide

/-- C2 (amended): every command synthesized by the link injector with a
namespace pid, on the unfiltered and on the filtered path, starts with
`nsenter --target {pid} --net ` (no `--pid` flag). -/
theorem c2_link_commands_net_only (pid : Nat) :
    (∀ device ft fp fpa fa tc cmd,
        makeNicsInjectionCommand (some pid) device ft fp fpa fa tc = some cmd →
        strStartsWith (linkBaseCommand (some pid)) cmd = true)
  ∧ (∀ fp fpa ft fa device proto dst src en cmds,
        makeFilteredNicsInjectionCommands (some pid) fp fpa ft fa device proto dst src en = some cmds →
        ∀ c ∈ cmds, strStartsWith (linkBaseCommand (some pid)) c = true) := by
  constructor
  · intro device ft fp fpa fa tc cmd h
    simp only [makeNicsInjectionCommand] at h
    repeat' split at h
    all_goals try exact Option.noConfusion h
    all_goals
      (injection h with h; subst h; simp only [strAppend_assoc]; exact strStartsWith_append _ _)
  · intro fp fpa ft fa device proto dst src en cmds h c hc
    simp only [makeFilteredNicsInjectionCommands] at h
    repeat' split at h
    all_goals try exact Option.noConfusion h
    all_goals injection h with h
    all_goals subst h
    all_goals
      simp only [strAppend_assoc, List.mem_cons, List.mem_append, List.mem_singleton,
        List.mem_map] at hc
    all_goals
      first
      | (obtain ⟨c', hc', rfl⟩ := hc
         apply startsWith_redirect_map _ _ _ (linkBase_ne_p pid)
         rcases hc' with rfl | hc'
         · exact strStartsWith_append _ _
         · obtain ⟨t, rfl⟩ := classifierCmds_shape _ _ _ _ c' hc'
           rw [strAppend_assoc]
           exact strStartsWith_append _ _)
      | (rcases hc with (rfl | hc) | (rfl | hc)
         · exact strStartsWith_append _ _
         · obtain ⟨t, rfl⟩ := classifierCmds_shape _ _ _ _ c hc
           rw [strAppend_assoc]
           exact strStartsWith_append _ _
         · exact strStartsWith_append _ _
         · exact absurd hc (List.not_mem_nil c))
      | (rcases hc with rfl | hc
         · exact strStartsWith_append _ _
         · first
           | exact absurd hc (List.not_mem_nil c)
           | (obtain ⟨t, rfl⟩ := classifierCmds_shape _ _ _ _ c hc
              rw [strAppend_assoc]
              exact strStartsWith_append _ _))

/-- C2 witness: the amended prefix theorem applied to the persistent-loss
command for pid 100 on eth0. -/
theorem c2_link_commands_net_only_witness :
    strStartsWith (linkBaseCommand (some 100))
      "nsenter --target 100 --net tc qdisc add dev eth0 root netem loss 100%" = true :=
  (c2_link_commands_net_only 100).1 "eth0" "loss" "persistent" [] [] "add"
    "nsenter --target 100 --net tc qdisc add dev eth0 root netem loss 100%" (by decide)

/-- C3 counterexample: for `pattern_args[0] = 25` the emitted `lt` value is
`1073741823 = int(4294967295 * 0.25)`, whereas the claim's formula
`2^32 * 25 / 100` gives `1073741824`; the synthesized command contains the
former and not the latter. -/
theorem c3_boundary_cex :
    randomRedirectBoundary 25 = 1073741823
  ∧ ((2 ^ 32 * 25 : Int) / 100 = 1073741824)
  ∧ pyIn "mask 4294967295 lt 1073741823 "
      ((makeNicsInjectionCommand none "eth0" "redirect" "random" [25] ["eth1"] "add").getD "") = true
  ∧ pyIn "1073741824"
      ((makeNicsInjectionCommand none "eth0" "redirect" "random" [25] ["eth1"] "add").getD "") = false := by
  decide

/-- C3 (amended): for `0 ≤ p ≤ 100` the random-redirect filter string carries
mask `4294967295` and an `lt` value of `(2^32 - 1) * p / 100` rounded down,
and every synthesized add command contains that filter string. -/
theorem c3_random_redirect_mask_boundary (p : Int) (_hp0 : 0 ≤ p) (_hp1 : p ≤ 100) :
    randomRedirectFilterString p =
      " basic match \"meta( random mask 4294967295 lt "
        ++ toString ((4294967295 * p : Int) / 100) ++ " ) \" "
  ∧ ∀ pid device dest cmd,
      makeNicsInjectionCommand pid device "redirect" "random" [p] [dest] "add" = some cmd →
      pyIn (randomRedirectFilterString p) cmd = true := by
  constructor
  · unfold randomRedirectFilterString randomRedirectBoundary randomRedirectMask
    rw [show (" basic match \"meta( random mask " ++ toString (4294967295 : Int) ++ " lt "
        : String) = " basic match \"meta( random mask 4294967295 lt " from by decide]
  · intro pid device dest cmd h
    have e1 : pyIn "random" "random" = true := by decide
    have e2 : pyIn "delay" "redirect" = false := by decide
    have e3 : pyIn "redirect" "redirect" = true := by decide
    have e4 : pyIn "add" "add" = true := by decide
    have hX : makeNicsInjectionCommand pid device "redirect" "random" [p] [dest] "add" =
        some ((linkBaseCommand pid ++ ("tc qdisc " ++ ("add" ++ (" dev " ++ (device
            ++ (" handle ffff: ingress " ++ (" ; " ++ (linkBaseCommand pid ++ ("tc filter "
            ++ ("add" ++ (" dev " ++ (device ++ " parent ffff: ")))))))))))
          ++ (randomRedirectFilterString p
            ++ (" " ++ (" action mirred egress " ++ ("redirect" ++ (" dev " ++ dest))))))) := by
      simp only [makeNicsInjectionCommand, e1, e2, e3, e4, Bool.false_eq_true, if_false,
        if_true, List.get?_cons_zero, List.get?_cons_succ, List.get?_nil, redirectOrMirror]
      simp only [strAppend_assoc]
    rw [hX] at h
    injection h with h
    subst h
    exact pyIn_append_self _ _ _

set_option maxRecDepth 4000 in
/-- C3 witness: the amended boundary theorem applied at `p = 25` and the
concrete add command the synthesizer emits for eth0 to eth1. -/
theorem c3_random_redirect_mask_boundary_witness :
    randomRedirectFilterString 25 =
      " basic match \"meta( random mask 4294967295 lt "
        ++ toString ((4294967295 * 25 : Int) / 100) ++ " ) \" "
  ∧ pyIn (randomRedirectFilterString 25)
      ("tc qdisc add dev eth0 handle ffff: ingress  ; tc filter add dev eth0 parent ffff:  basic match \"meta( random mask 4294967295 lt 1073741823 ) \"   action mirred egress redirect dev eth1") = true :=
  ⟨(c3_random_redirect_mask_boundary 25 (by decide) (by decide)).1,
   (c3_random_redirect_mask_boundary 25 (by decide) (by decide)).2 none "eth0" "eth1" _ (by decide)⟩

/-- C4 (amended): for a filtered link fault, a deactivation pass calls
`set_fault_inactive` exactly once (the disable list is a single command),
while an activation pass calls `set_fault_active` once per synthesized enable
command; the two counts are not equal in general. -/
theorem c4_filtered_logger_counts (cfg : LinkCfg) (fp : String) (fpa : List Int)
    (h : pyIn "any" cfg.protocol = false) :
    (∀ evs, injectNicsEvents cfg fp fpa false = some evs →
        evs.countP isInactiveEv = 1 ∧ evs.countP isActiveEv = 0)
  ∧ (∀ evs cmds, injectNicsEvents cfg fp fpa true = some evs →
        makeFilteredNicsInjectionCommands cfg.pid fp fpa cfg.faultType cfg.faultArgs
          cfg.device cfg.protocol cfg.dstPorts cfg.srcPorts true = some cmds →
        evs.countP isActiveEv = cmds.length ∧ evs.countP isInactiveEv = 0) := by
  constructor
  · intro evs hev
    simp only [injectNicsEvents, h, Bool.false_eq_true, if_false] at hev
    rw [makeFilteredNicsInjectionCommands] at hev
    simp only [Bool.false_eq_true, if_false] at hev
    split at hev
    · exact Option.noConfusion hev
    · injection hev with hev
      subst hev
      rename_i cmds heq
      split at heq
      all_goals
        (injection heq with heq; subst heq
         simp [List.countP_cons, isActiveEv, isInactiveEv])
  · intro evs cmds hev hcmds
    simp only [injectNicsEvents, h, Bool.false_eq_true, if_false] at hev
    rw [hcmds] at hev
    injection hev with hev
    subst hev
    constructor
    · rw [countP_flatMap_pair isActiveEv _ cmds (fun c => rfl)]
      simp [isActiveEv, List.countP_true]
    · rw [countP_flatMap_pair isInactiveEv _ cmds (fun c => rfl)]
      simp [isInactiveEv, List.countP_false]

/-- C4 counterexample: a persistent filtered loss fault on TCP dport 80 logs
three `set_fault_active` calls during activation but only one
`set_fault_inactive` during deactivation. -/
theorem c4_filtered_logger_counts_cex :
    (linkDoInjectionTrace c4LinkCfg).map
      (fun l => (l.countP isActiveEv, l.countP isInactiveEv)) = some (3, 1)
  ∧ (3 : Nat) ≠ 1 := by decide

/-- C4 witness: the amended count theorem applied to the concrete filtered
configuration's deactivation pass. -/
theorem c4_filtered_logger_counts_witness :
    List.countP isInactiveEv [Ev.exec "tc qdisc del dev eth0 root handle 1: prio",
      Ev.inactive "t"] = 1
  ∧ List.countP isActiveEv [Ev.exec "tc qdisc del dev eth0 root handle 1: prio",
      Ev.inactive "t"] = 0 :=
  (c4_filtered_logger_counts c4LinkCfg "persistent" [] (by decide)).1
    [Ev.exec "tc qdisc del dev eth0 root handle 1: prio", Ev.inactive "t"] (by decide)

/-- C5 (amended): the Multi and Node injectors log an error on an unknown
fault pattern and run only the pre/post sleeps; the link injector has no such
branch and dispatches every pattern containing neither `burst` nor
`degradation` to the persistent-or-random path. -/
theorem c5_unknown_pattern_skip (mc : MultiCfg) (nc : NodeCfg) (fp : String)
    (hm1 : mc.faultPattern ≠ "burst") (hm2 : mc.faultPattern ≠ "persistent")
    (hn1 : nc.faultPattern ≠ "burst") (hn2 : nc.faultPattern ≠ "degradation")
    (hn3 : nc.faultPattern ≠ "persistent")
    (hl1 : pyIn "burst" fp = false) (hl2 : pyIn "degradation" fp = false) :
    multiDoInjectionTrace mc = some [Ev.sleep mc.preMs, Ev.sleep mc.postMs]
  ∧ nodeDoInjectionTrace nc = some [Ev.sleep nc.preMs, Ev.sleep nc.postMs]
  ∧ linkDispatch fp = LinkPhase.persistentOrRandom := by
  refine ⟨?_, ?_, ?_⟩
  · simp [multiDoInjectionTrace, hm1, hm2]
  · simp [nodeDoInjectionTrace, hn1, hn2, hn3]
  · simp [linkDispatch, hl1, hl2]

/-- C5 counterexample: for the link injector the unknown pattern `frobnicate`
is dispatched to the persistent-or-random path; the synthesizer then returns
`None` (after an error log) and `subprocess.call(None)` raises, so the active
phase is entered rather than skipped and the post-injection sleep is lost. -/
theorem c5_unknown_pattern_cex :
    linkDispatch "frobnicate" = LinkPhase.persistentOrRandom
  ∧ makeNicsInjectionCommand (some 100) "eth0" "loss" "frobnicate" [] [] "add" = none
  ∧ linkDoInjectionTrace c5LinkCfg = none := by decide

/-- C5 witness: the amended dispatch theorem applied to concrete Multi and
Node configurations with the unknown pattern `weird`. -/
theorem c5_unknown_pattern_skip_witness :
    multiDoInjectionTrace c5MultiCfg = some [Ev.sleep c5MultiCfg.preMs, Ev.sleep c5MultiCfg.postMs]
  ∧ nodeDoInjectionTrace c5NodeCfg = some [Ev.sleep c5NodeCfg.preMs, Ev.sleep c5NodeCfg.postMs]
  ∧ linkDispatch "weird" = LinkPhase.persistentOrRandom :=
  c5_unknown_pattern_skip c5MultiCfg c5NodeCfg "weird" (by decide) (by decide) (by decide)
    (by decide) (by decide) (by decide) (by decide)

/-- C6 (code bug): the Multi and Node injectors default missing burst
parameters to 1000 ms per 2000 ms and run `⌊injection_time / period⌋` cycles
(2 cycles in 5 s), but the link injector only logs the missing-argument error
and then still indexes `pattern_args[0]`, raising IndexError, so its burst run
(and its whole `do_injection`) dies instead of using the defaults. -/
theorem c6_burst_defaults :
    multiBurstParams [] = (1000, 2000)
  ∧ nodeBurstParams [] = (1000, 2000)
  ∧ multiBurstParams [500] = (1000, 2000)
  ∧ linkBurstTrace c6LinkCfg = none
  ∧ linkDoInjectionTrace c6LinkCfg = none
  ∧ (multiDoInjectionTrace c6MultiCfg).map (fun l => l.countP isActiveEv) = some 2
  ∧ (nodeDoInjectionTrace c6NodeCfg).map (fun l => l.countP isActiveEv) = some 2
  ∧ Int.tdiv c6MultiCfg.injMs 2000 = 2 := by decide

/-- C7 (amended): the degradation intensity sequence is non-decreasing and
bounded by the end value provided the step size is non-negative and the start
value does not exceed the (clamped) end value. -/
theorem c7_degradation_monotone (start step endD : Int) (hstep : 0 ≤ step)
    (hse : start ≤ endD) :
    (∀ n, degradationSeq start step endD n ≤ degradationSeq start step endD (n + 1))
  ∧ ∀ n, degradationSeq start step endD n ≤ endD := by
  have hb : ∀ n, degradationSeq start step endD n ≤ endD := by
    intro n
    induction n with
    | zero => exact hse
    | succ n _ =>
      show degradationStep step endD (degradationSeq start step endD n) ≤ endD
      exact min_le_right _ _
  refine ⟨?_, hb⟩
  intro n
  show degradationSeq start step endD n ≤ degradationStep step endD (degradationSeq start step endD n)
  unfold degradationStep
  exact le_min (le_add_of_nonneg_right hstep) (hb n)

/-- C7 counterexample: with `pattern_args = [5, 1000, 50, 10]` (start 50, end
10) both injectors submit the decreasing sequence `[50, 10]`, whose first
element exceeds the caller-supplied end value 10. -/
theorem c7_degradation_monotone_cex :
    linkDegradationParams [5, 1000, 50, 10] = (5, 1000, 50, 10)
  ∧ linkDegIntensities [5, 1000, 50, 10] 2 = [50, 10]
  ∧ nodeDegIntensities [5, 1000, 50, 10] 2 = [50, 10]
  ∧ ((10 : Int) < 50) := by decide

/-- C7 witness: the amended monotonicity theorem applied at start 0, step 5,
end 100. -/
theorem c7_degradation_monotone_witness :
    ((0 : Int) ≤ 5 ∧ (0 : Int) ≤ 100)
  ∧ degradationSeq 0 5 100 2 ≤ degradationSeq 0 5 100 3
  ∧ degradationSeq 0 5 100 2 ≤ 100 :=
  ⟨⟨by decide, by decide⟩,
   (c7_degradation_monotone 0 5 100 (by decide) (by decide)).1 2,
   (c7_degradation_monotone 0 5 100 (by decide) (by decide)).2 2⟩

/-- C8 (code bug): a custom degradation template with two placeholders logs
the usage error but then `str.format` raises IndexError at the first step, so
the whole `do_injection` dies (`none`) instead of completing; with one
placeholder the run completes. -/
theorem c8_custom_degradation_placeholder_crash :
    countPlaceholders "set_rate \x7b\x7d \x7b\x7d &" = 2
  ∧ nodeDoInjectionTrace c8TwoPlaceholderCfg = none
  ∧ (nodeDoInjectionTrace c8OnePlaceholderCfg).isSome = true
  ∧ countPlaceholders "set_rate \x7b\x7d &" = 1 := by decide

/-- C9 counterexample: with both port sets passed as empty lists the filtered
add list holds no u32 classifier at all (the protocol-only classifier is only
added when both sets are `None`). -/
theorem c9_empty_port_sets_cex :
    makeFilteredNicsInjectionCommands none "persistent" [] "loss" [] "eth0" "TCP"
        (some []) (some []) true =
      some ["tc qdisc add dev eth0 root handle 1: prio",
        "tc qdisc add dev eth0 parent 1:1 handle 2: netem loss 100%"]
  ∧ ((makeFilteredNicsInjectionCommands none "persistent" [] "loss" [] "eth0" "TCP"
        (some []) (some []) true).getD []).countP (fun c => pyIn "u32" c) = 0 := by decide

/-- C9 (amended): the classifier block emits exactly one protocol-only u32
classifier when both port arguments are `None` and none at all when both are
empty lists; for absent ports the full filtered add list is root qdisc,
that single classifier, and the netem leaf. -/
theorem c9_empty_port_sets (bq protoCmd : String) :
    classifierCmds bq protoCmd none none = [bq ++ protoCmd ++ " flowid 1:1"]
  ∧ classifierCmds bq protoCmd (some []) (some []) = []
  ∧ ∀ pid device fa fpa,
      makeFilteredNicsInjectionCommands pid "persistent" fpa "loss" fa device "TCP"
          none none true =
        some [linkBaseCommand pid ++ "tc qdisc add dev " ++ device ++ " root handle 1: prio",
          (linkBaseCommand pid ++ "tc filter add dev " ++ device
              ++ " parent 1:0 protocol ip prio 1 u32 ")
            ++ ("match ip protocol " ++ "6" ++ " 0xff") ++ " flowid 1:1",
          linkBaseCommand pid ++ "tc qdisc add dev " ++ device
            ++ " parent 1:1 handle 2: netem " ++ "loss" ++ " " ++ "100%"] := by
  refine ⟨rfl, rfl, ?_⟩
  intro pid device fa fpa
  rfl

/-- C10: in `_inject_persistent` for custom faults the `len < 1` arm is dead
(it is tested after `len < 2`), and an empty `fault_args` list takes the first
arm and raises IndexError at `fault_args[0]`, modelled as `none`. -/
theorem c10_persistent_custom_dead_branch :
    (∀ fa : List String, nodePersistentCustomBranch fa ≠ PersistentCustomBranch.noCommands)
  ∧ nodePersistentCustomCommands [] = none
  ∧ nodePersistentTrace c10NodeCfg = none
  ∧ nodeDoInjectionTrace c10NodeCfg = none := by
  refine ⟨?_, rfl, rfl, rfl⟩
  intro fa
  unfold nodePersistentCustomBranch
  split
  · decide
  · split
    · exfalso
      omega
    · decide
